import Mathlib

/-!
Verification development for `dsargparse.py`, a docstring-driven wrapper of
Python's argparse. The Python source is shallowly embedded: each Python
function becomes a Lean function of the same name (modulo Lean naming rules)
over explicit data, text is handled as `List Char`, fallible code returns
`Except PyErr`. The two regular expressions of `_parse_args` are embedded as
explicit backtracking matchers implementing exactly the Python `re` semantics
(lazy and greedy quantifiers, optional groups, substitution returning the
input unchanged on no match, unmatched groups substituted by the empty
string). Line splitting is modelled for newline-separated text (the only
line separator occurring in the data this program handles).
-/

namespace Dsarg

/-- Python `\s` (ASCII range): space, tab, newline, carriage return,
vertical tab, form feed. -/
def isPySpace (c : Char) : Bool :=
  c = ' ' || c = '\t' || c = '\n' || c = '\r' || c = '\x0b' || c = '\x0c'

/-- The characters `textwrap.dedent` treats as indentation (`[ \t]`). -/
def isIndentChar (c : Char) : Bool :=
  c = ' ' || c = '\t'

/-- Python `str.strip()` on character lists. -/
def pyStripL (cs : List Char) : List Char :=
  ((cs.dropWhile isPySpace).reverse.dropWhile isPySpace).reverse

/-- Split a character list at every newline (every part, including a final
empty part when the text ends with a newline). -/
def splitOnNl : List Char → List (List Char)
  | [] => [[]]
  | '\n' :: rest => [] :: splitOnNl rest
  | c :: rest =>
    match splitOnNl rest with
    | [] => [[c]]
    | l :: ls => (c :: l) :: ls

/-- Python `str.splitlines()` for newline-separated text: empty text gives no
lines, and a trailing newline does not produce a final empty line. -/
def pySplitlinesL (cs : List Char) : List (List Char) :=
  match cs with
  | [] => []
  | _ =>
    let parts := splitOnNl cs
    if cs.getLast? = some '\n' then parts.dropLast else parts

/-- Python `'\n'.join(...)` on character lists. -/
def intercalateNl : List (List Char) → List Char
  | [] => []
  | [l] => l
  | l :: ls => l ++ '\n' :: intercalateNl ls

/-- Python substring containment `needle in hay` (`x in s` for strings). -/
def containsSub (hay needle : List Char) : Bool :=
  needle.isPrefixOf hay ||
    (match hay with
     | [] => false
     | _ :: t => containsSub t needle)

/-- Longest common prefix of two character lists (the net effect of the
margin-merging loop in `textwrap.dedent`). -/
def commonPrefixL : List Char → List Char → List Char
  | a :: as, b :: bs => if a = b then a :: commonPrefixL as bs else []
  | _, _ => []

/-- `textwrap.dedent` on a list of lines: lines consisting solely of spaces
and tabs are normalized to empty lines; the margin is the longest common
`[ \t]`-prefix of the remaining non-empty lines; the margin is removed from
every line that starts with it. -/
def dedentLinesL (ls : List (List Char)) : List (List Char) :=
  let norm := ls.map (fun l => if !l.isEmpty && l.all isIndentChar then [] else l)
  let indents := (norm.filter (fun l => !l.isEmpty)).map (fun l => l.takeWhile isIndentChar)
  let margin := match indents with
    | [] => []
    | i :: is => is.foldl commonPrefixL i
  norm.map (fun l => if margin.isPrefixOf l then l.drop margin.length else l)

/-- `textwrap.dedent` on text. -/
def pyDedentL (cs : List Char) : List Char :=
  intercalateNl (dedentLinesL (splitOnNl cs))

/-!
## The two regular expressions of `_parse_args`

Pattern P1 (used by `extract_key`, `extract_type_nargs`, `extract_value`):
the raw pattern text is
group1 `^[^\s]+?` lazy, then `\s*`, then an optional parenthesized group
whose inner capture (group 3) is `[^:]+?` lazy framed by `\s*`, then `\s*:`,
then group 4 capturing the whole rest of the string (newlines included).

Pattern P2 (used inside `extract_type_nargs` to split an annotation into
outer and bracketed inner identifier): group1 `^([^\s]+?)` lazy, then an
optional group `\s*\[\s*([^\s]+)\s*\]\s*` whose inner capture (group 3) is
greedy, anchored by `$`.
-/

/-- Matcher for the parenthesized part of P1 starting just after the opening
`(`: tries the greedy `\s*`, the lazy `[^:]+?` (group 3), the greedy `\s*`
before `)`, and then requires `\s*:`; returns the group-3 capture and the
text after the colon (group 4). The loops realize the backtracking order of
the Python engine (later choice points vary first; lazy quantifiers grow,
greedy quantifiers shrink). -/
def tryParenP1 (r2 : List Char) : Option (List Char × List Char) :=
  let maxB := (r2.takeWhile isPySpace).length
  ((List.range (maxB + 1)).reverse).findSome? fun b =>
    let r3 := r2.drop b
    let mMax := (r3.takeWhile (fun c => c ≠ ':')).length
    ((List.range mMax).map (· + 1)).findSome? fun m =>
      let g3 := r3.take m
      let r4 := r3.drop m
      let maxC := (r4.takeWhile isPySpace).length
      ((List.range (maxC + 1)).reverse).findSome? fun c =>
        match r4.drop c with
        | ')' :: r6 =>
          match r6.dropWhile isPySpace with
          | ':' :: g4 => some (g3, g4)
          | _ => none
        | _ => none

/-- Full match of P1 against the whole string (the pattern is anchored by `^`
and ends with a capture of everything up to `$`). Returns
(group 1, group 3 when the optional parenthesized group matched, group 4).
The lazy group 1 grows one non-whitespace character at a time; after it the
whitespace run is skipped and the next character decides between the
parenthesized branch and the bare-colon branch. -/
def matchP1 (cs : List Char) : Option (List Char × Option (List Char) × List Char) :=
  let maxK := (cs.takeWhile (fun c => !isPySpace c)).length
  ((List.range maxK).map (· + 1)).findSome? fun k =>
    let g1 := cs.take k
    let r1 := (cs.drop k).dropWhile isPySpace
    match r1 with
    | ':' :: g4 => some (g1, none, g4)
    | '(' :: r2 =>
      match tryParenP1 r2 with
      | some (g3, g4) => some (g1, some g3, g4)
      | none => none
    | _ => none

/-- `re.sub(P1, r'\1', line)`: the group-1 text on a match, the input
unchanged when the pattern does not match. -/
def subP1group1 (cs : List Char) : List Char :=
  match matchP1 cs with
  | some (g1, _, _) => g1
  | none => cs

/-- `re.sub(P1, r'\3', line)`: the group-3 text on a match (empty when the
optional group did not participate), the input unchanged on no match. -/
def subP1group3 (cs : List Char) : List Char :=
  match matchP1 cs with
  | some (_, g3, _) => g3.getD []
  | none => cs

/-- `re.sub(P1, r'\4', line)`: the group-4 text on a match, the input
unchanged on no match. -/
def subP1group4 (cs : List Char) : List Char :=
  match matchP1 cs with
  | some (_, _, g4) => g4
  | none => cs

/-- Python `$`: end of string, or immediately before a final newline. -/
def atDollar (r : List Char) : Bool :=
  r.isEmpty || r = ['\n']

/-- Matcher for the optional bracketed part of P2: `\s*\[\s*([^\s]+)\s*\]\s*`
followed by `$`. Group 3 is greedy, so the candidate shrinks from the full
non-whitespace run. -/
def tryBracketP2 (r : List Char) : Option (List Char) :=
  match r.dropWhile isPySpace with
  | '[' :: r2 =>
    let r3 := r2.dropWhile isPySpace
    let runLen := (r3.takeWhile (fun c => !isPySpace c)).length
    (((List.range runLen).map (· + 1)).reverse).findSome? fun m =>
      let g3 := r3.take m
      match (r3.drop m).dropWhile isPySpace with
      | ']' :: r4 => if atDollar (r4.dropWhile isPySpace) then some g3 else none
      | _ => none
  | _ => none

/-- Full match of P2 against the whole string: returns (group 1, group 3 when
the bracketed group matched). The optional group is preferred over the bare
`$`. -/
def matchP2 (cs : List Char) : Option (List Char × Option (List Char)) :=
  let maxK := (cs.takeWhile (fun c => !isPySpace c)).length
  ((List.range maxK).map (· + 1)).findSome? fun k =>
    let g1 := cs.take k
    let r := cs.drop k
    match tryBracketP2 r with
    | some g3 => some (g1, some g3)
    | none => if atDollar r then some (g1, none) else none

/-- `re.sub(P2, r'\1', type_)`. -/
def subP2group1 (cs : List Char) : List Char :=
  match matchP2 cs with
  | some (g1, _) => g1
  | none => cs

/-- `re.sub(P2, r'\3', type_)`. -/
def subP2group3 (cs : List Char) : List Char :=
  match matchP2 cs with
  | some (_, g3) => g3.getD []
  | none => cs

/-!
## Data model

Python runtime values are embedded as far as this program inspects them:
integers, floats (kept as their decimal literal, since the program only ever
moves them around and asks for their `type`), strings, booleans, lists,
tuples and `None`. Python errors become an explicit error type.
-/

/-- The Python runtime values this program inspects (function default
values and their elements). A float is kept as its decimal literal: the
program never computes with floats, it only stores them and asks for their
runtime type. -/
inductive PyVal where
  | int (n : Int)
  | float (lit : String)
  | str (s : String)
  | bool (b : Bool)
  | list (xs : List PyVal)
  | tuple (xs : List PyVal)
  | pyNone

/-- The Python type objects this program produces (`eval` of a documented
annotation, or `type(default)`). -/
inductive PyType where
  | int
  | float
  | str
  | bool
  | list
  | tuple
  | dict
  | noneType
deriving DecidableEq, Repr

/-- Python `type(v)`. -/
def pyTypeOf : PyVal → PyType
  | .int _ => .int
  | .float _ => .float
  | .str _ => .str
  | .bool _ => .bool
  | .list _ => .list
  | .tuple _ => .tuple
  | .pyNone => .noneType

/-- The Python exceptions the embedded code can raise. -/
inductive PyErr where
  | typeError
  | nameError (name : String)
  | valueError (msg : String)
  | assertionError
  | indexError
  | attributeError
deriving DecidableEq, Repr

/-- A Python function as far as this program introspects it: its `__name__`,
its `__doc__` (absent or a string), its declared parameter names
(`getfullargspec(...)[0]`) and its default values (`getfullargspec(...)[3]`,
the empty list standing for Python's `None`, which `inspect` returns when the
function declares no defaults). -/
structure Func where
  name : String
  doc : Option String
  params : List String
  defaults : List PyVal

/-- A Python object a docstring can be read from. `_parse_doc` is applied to
function objects, but `ArgumentParser.__init__` applies it (through the
module lookup) to a plain string, for which `__doc__` resolves to the class
docstring of the builtin `str` type. -/
inductive PyObj where
  | func (f : Func)
  | strVal (s : String)

/-- The docstring of the builtin `str` class: a fixed text of CPython
(paraphrased here; the exact wording is version-dependent and apostrophes are
elided, which none of the theorems depend on). Accessing `.__doc__` on any
string instance yields this text, independent of the string contents. -/
def strClassDoc : String :=
  "str(object=...) -> str\nstr(bytes_or_buffer[, encoding[, errors]]) -> str\n\nCreate a new string object from the given object."

/-- Python attribute access `o.__doc__` for the objects this program reads
docstrings from. -/
def dunderDoc : PyObj → Option String
  | .func f => f.doc
  | .strVal _ => some strClassDoc

/-- One resolved Args entry as stored in the map built by `_parse_args`:
the dictionary with keys `help`, `type`, `default`, `nargs` where the last
three may hold Python `None`. -/
structure ArgSpec where
  help : String
  type_ : Option PyType
  default : Option PyVal
  nargs : Option String

/-- `extract_default_from_signature(argname, func)`: take the last
`len(defaults)` parameter names, pair them with the defaults, and look the
argument name up (absent names give `None`). A default that is itself the
Python `None` object is indistinguishable from an absent one, so it is
normalized to `Option.none` as well. -/
def extract_default_from_signature (argname : String) (f : Func) : Option PyVal :=
  if f.defaults.isEmpty then none
  else
    let args := f.params.drop (f.params.length - f.defaults.length)
    match (args.zip f.defaults).lookup argname with
    | some PyVal.pyNone => none
    | some v => some v
    | none => none

/-- `inspect.getfullargspec` raises `TypeError` on a non-function, so the
default lookup does too when `_parse_args` was handed a plain string. -/
def extractDefaultObj (argname : String) : PyObj → Except PyErr (Option PyVal)
  | .func f => .ok (extract_default_from_signature argname f)
  | .strVal _ => .error .typeError

/-- `extract_key(line)` from `_parse_args`. -/
def extract_key (cs : List Char) : List Char :=
  pyStripL (subP1group1 cs)

/-- `extract_value(line)` from `_parse_args`. -/
def extract_value (cs : List Char) : List Char :=
  pyStripL (subP1group4 cs)

/-- Python `eval` on the builtin names a docstring annotation can denote:
the primitive types the spec requires (`int`, `float`, `str`, `bool`), the
collection types (`list`, `tuple`, `dict`), and the constant `None`, which
evaluates to the `None` object (`.ok none`). `eval(None)` — the non-string
argument — raises `TypeError`; any other bare identifier raises the
`NameError` Python raises for an unknown name (non-identifier expressions
are outside the model). -/
def evalTypeNameStr (cs : List Char) : Except PyErr (Option PyType) :=
  if cs = "int".data then .ok (some .int)
  else if cs = "float".data then .ok (some .float)
  else if cs = "str".data then .ok (some .str)
  else if cs = "bool".data then .ok (some .bool)
  else if cs = "list".data then .ok (some .list)
  else if cs = "tuple".data then .ok (some .tuple)
  else if cs = "dict".data then .ok (some .dict)
  else if cs = "None".data then .ok none
  else .error (.nameError (String.mk cs))

/-- `eval` on the expression `extract_type_nargs` builds: `None` (the
non-string argument) raises `TypeError`, a name resolves per
`evalTypeNameStr`. -/
def evalTypeName : Option (List Char) → Except PyErr (Option PyType)
  | none => .error .typeError
  | some cs => evalTypeNameStr cs

/-- Number of occurrences of a character (`str.count` for a single
character). -/
def countChar (cs : List Char) (c : Char) : Nat :=
  (cs.filter (fun x => x = c)).length

/-- The `eval` step of `extract_type_nargs` once an annotation survived the
early returns: split it into outer and inner identifier via P2 (an unmatched
inner group yields the empty string, normalized to `None`); a `list`/`tuple`
outer makes the expression to evaluate the inner identifier and sets `nargs`
to `'+'`; any other outer leaves the full annotation as the expression with
`nargs` unset. -/
def extractTypeNargsEval (type_ : List Char) :
    Except PyErr (Option PyType × Option String) :=
  if subP2group1 type_ = "list".data || subP2group1 type_ = "tuple".data then
    match evalTypeName
        (if (subP2group3 type_).isEmpty then none else some (subP2group3 type_)) with
    | .ok t => .ok (t, some "+")
    | .error e => .error e
  else
    match evalTypeName (some type_) with
    | .ok t => .ok (t, none)
    | .error e => .error e

/-- The body of `extract_type_nargs` on the stripped annotation text: empty
means no annotation; more than one opening bracket is given up on; otherwise
resolve via P2 and `eval`. -/
def extractTypeNargsCore (type_ : List Char) :
    Except PyErr (Option PyType × Option String) :=
  if type_.isEmpty then .ok (none, none)
  else if countChar type_ '[' > 1 then .ok (none, none)
  else extractTypeNargsEval type_

/-- `extract_type_nargs(line)` from `_parse_args`: extract the parenthesized
annotation (group 3 of P1, stripped) and resolve it. -/
def extract_type_nargs (cs : List Char) : Except PyErr (Option PyType × Option String) :=
  extractTypeNargsCore (pyStripL (subP1group3 cs))

/-- `guess_type_nargs(default)` from `_parse_args`: `None` gives nothing; a
list or tuple gives one-or-more of its first element's type (no type when
empty); any other value gives its own runtime type. -/
def guess_type_nargs : Option PyVal → Option PyType × Option String
  | none => (none, none)
  | some (.list xs) =>
    ((match xs with
      | [] => none
      | x :: _ => some (pyTypeOf x)), some "+")
  | some (.tuple xs) =>
    ((match xs with
      | [] => none
      | x :: _ => some (pyTypeOf x)), some "+")
  | some v => (some (pyTypeOf v), none)

/-- `_starts_with_white(line)`, i.e. `re.match(r'^\s+.*$', line)`: on the
newline-free lines this program applies it to, the pattern matches exactly
when the line is nonempty and begins with a whitespace character. -/
def starts_with_white (l : List Char) : Bool :=
  match l with
  | [] => false
  | c :: _ => isPySpace c

/-- Python dict update: overwrite in place when the key exists (keeping its
position), append otherwise. -/
def dictInsert (m : List (String × ArgSpec)) (k : String) (v : ArgSpec) :
    List (String × ArgSpec) :=
  if m.any (fun p => p.1 = k) then
    m.map (fun p => if p.1 = k then (k, v) else p)
  else m ++ [(k, v)]

/-- The `arg_line` an entry line grows into: the following whitespace-led
lines are joined onto it; the Python code appends the newline
unconditionally, because a `takewhile` iterator object is always truthy
(`if additional_lines:` never skips). -/
def entryArgLine (line : List Char) (rest : List (List Char)) : List Char :=
  line ++ '\n' :: intercalateNl (rest.takeWhile starts_with_white)

/-- The final type/nargs pair of an entry: the guess from the default only
runs when the annotation produced neither. -/
def resolveTypeNargs (t0 : Option PyType) (n0 : Option String)
    (dflt : Option PyVal) : Option PyType × Option String :=
  if t0.isNone && n0.isNone then guess_type_nargs dflt else (t0, n0)

/-- The loop body of `_parse_args` over the filtered nonblank lines: a line
starting with whitespace is a continuation and skipped; otherwise the line
must contain a colon (`assert`) and the entry fields are extracted from its
`arg_line`. -/
def parseArgsGo (o : PyObj) : List (List Char) → List (String × ArgSpec) →
    Except PyErr (List (String × ArgSpec))
  | [], acc => .ok acc
  | line :: rest, acc =>
    if starts_with_white line then parseArgsGo o rest acc
    else if !containsSub line [':'] then .error .assertionError
    else
      match extract_type_nargs (entryArgLine line rest) with
      | .error e => .error e
      | .ok (t0, n0) =>
        match extractDefaultObj (String.mk (extract_key (entryArgLine line rest))) o with
        | .error e => .error e
        | .ok dflt =>
          parseArgsGo o rest (dictInsert acc
            (String.mk (extract_key (entryArgLine line rest)))
            ⟨String.mk (extract_value (entryArgLine line rest)),
             (resolveTypeNargs t0 n0 dflt).1, dflt, (resolveTypeNargs t0 n0 dflt).2⟩)

/-- `_parse_args(args_desc, func)`: split the section text into lines, drop
blank lines, and fold the entry loop. -/
def parse_args (args_desc : List Char) (o : PyObj) :
    Except PyErr (List (String × ArgSpec)) :=
  parseArgsGo o ((pySplitlinesL args_desc).filter (fun l => !l.isEmpty)) []

/-- `_checker(keywords)`: true when no keyword occurs as a substring. -/
def checker (keywords : List String) (v : List Char) : Bool :=
  keywords.all (fun k => !containsSub v k.data)

/-- `_KEYWORDS_ARGS`. -/
def KEYWORDS_ARGS : List String := ["Args:"]

/-- `_KEYWORDS_OTHERS`. -/
def KEYWORDS_OTHERS : List String := ["Returns:", "Raises:", "Yields:", "Usage:"]

/-- `_KEYWORDS`. -/
def KEYWORDS : List String := KEYWORDS_ARGS ++ KEYWORDS_OTHERS

/-- The nonblank lines before the first keyword line of a stripped docstring
(the `descriptions` list of `_parse_doc`). -/
def descriptionLines (doc : List Char) : List (List Char) :=
  ((pySplitlinesL (pyStripL doc)).takeWhile (checker KEYWORDS)).filter
    (fun l => !l.isEmpty)

/-- The nonblank lines from the first `Args:` line up to the next other
section keyword (the `args` list of `_parse_doc`). -/
def argsSectionLines (doc : List Char) : List (List Char) :=
  (((pySplitlinesL (pyStripL doc)).dropWhile (checker KEYWORDS_ARGS)).takeWhile
      (checker KEYWORDS_OTHERS)).filter (fun l => !l.isEmpty)

/-- The dedented text handed to `_parse_args` (the `Args:` line itself is
dropped). -/
def argsSectionText (doc : List Char) : List Char :=
  pyDedentL (intercalateNl ((argsSectionLines doc).drop 1))

/-- The result dictionary of `_parse_doc`. -/
structure ParsedDoc where
  headline : String
  description : String
  args : List (String × ArgSpec)

/-- The body of `_parse_doc` once the docstring text is in hand: compute the
args map, then the headline and description; an empty `descriptions` list
raises `IndexError` at `descriptions[0]` (after `_parse_args` already ran). -/
def parseDocStr (doc : String) (o : PyObj) : Except PyErr ParsedDoc :=
  match parse_args (argsSectionText doc.data) o with
  | .error e => .error e
  | .ok argmap =>
    match descriptionLines doc.data with
    | [] => .error .indexError
    | h :: t =>
      .ok ⟨String.mk h,
        if t.isEmpty then String.mk h
        else String.mk h ++ "\n\n" ++ String.mk (pyDedentL (intercalateNl t)),
        argmap⟩

/-- `_parse_doc(func)`: read `__doc__` (raising `AttributeError` on `None`,
as `None.strip()` would) and process the text. -/
def parse_doc (o : PyObj) : Except PyErr ParsedDoc :=
  match dunderDoc o with
  | none => .error .attributeError
  | some doc => parseDocStr doc o

/-!
## Parser adapter
-/

/-- Python truthiness test `not kwargs[k]` for an optional string keyword:
absent or empty counts as falsy. -/
def falsyStr : Option String → Bool
  | none => true
  | some s => s.isEmpty

/-- Resolve a keyword argument against a docstring-derived fallback: the
caller value wins unless absent or falsy. -/
def resolveKw (kw : Option String) (fallback : String) : String :=
  match kw with
  | some s => if s.isEmpty then fallback else s
  | none => fallback

/-- The subparser produced by `_SubparsersWrapper.add_parser`: its resolved
name, help, description, the ArgSpec map stored on it, and the handler bound
as the default of the reserved `cmd` attribute via `set_defaults`. -/
structure SubparserResult where
  name : String
  help : String
  description : String
  argmap : List (String × ArgSpec)
  cmdDefault : Option Func

/-- `_SubparsersWrapper.add_parser(func, name, **kwargs)`: with a function,
an absent or empty docstring raises `ValueError` naming the function; then
the docstring is parsed, help and description default to the headline and
description unless the caller supplied truthy values, the name defaults to
the function name, the args map is stored on the new parser, and the
function is bound as the `cmd` default. Without a function the call is
delegated unchanged (modelled minimally; the claims only concern the
function branch). The `formatter_class` keyword is not modelled. -/
def addParser (func : Option Func) (name : Option String)
    (kwHelp kwDesc : Option String) : Except PyErr SubparserResult :=
  match func with
  | some f =>
    if falsyStr f.doc then
      .error (.valueError ("No docstrings given in " ++ f.name))
    else
      match parse_doc (.func f) with
      | .error e => .error e
      | .ok info =>
        .ok ⟨resolveKw name f.name, resolveKw kwHelp info.headline,
          resolveKw kwDesc info.description, info.args, some f⟩
  | none => .ok ⟨name.getD "", kwHelp.getD "", kwDesc.getD "", [], none⟩

/-- The description computed by `ArgumentParser.__init__` when a `main`
function is given: if the caller supplied no (truthy) description, the code
runs `_parse_doc(inspect.getmodule(main).__doc__)` — it passes the module's
docstring *string*, so `_parse_doc` reads `__doc__` of that string object,
which is the docstring of the builtin `str` class, not the module text. -/
def initDescription (moduleDoc : String) (descKw : Option String) :
    Except PyErr (Option String) :=
  if falsyStr descKw then
    match parse_doc (.strVal moduleDoc) with
    | .error e => .error e
    | .ok info => .ok (some info.description)
  else .ok descKw

/-- The keyword arguments of `add_argument` this program touches. The outer
`Option` is presence in `kwargs` (`key in kwargs`); the inner value may be
the Python `None`. -/
structure Kwargs where
  help : Option (Option String)
  type_ : Option (Option PyType)
  default : Option (Option PyVal)
  nargs : Option (Option String)

/-- The kwargs dictionary of a call that supplies none of the four fields. -/
def emptyKwargs : Kwargs := ⟨none, none, none, none⟩

/-- One step of the copy loop of `ArgumentParser.add_argument`: skip a field
already in `kwargs`, skip an ArgSpec field holding `None`, copy otherwise. -/
def mergeField {α : Type} (supplied : Option (Option α)) (specField : Option α) :
    Option (Option α) :=
  match supplied with
  | some v => some v
  | none =>
    match specField with
    | none => none
    | some x => some (some x)

/-- Apply the matching ArgSpec entry to the kwargs (the `for key, value in
arginfo.items()` loop; `help` is always a string in the stored dictionary,
the other three may be `None`). -/
def applyEntry (e : ArgSpec) (kw : Kwargs) : Kwargs :=
  ⟨mergeField kw.help (some e.help), mergeField kw.type_ e.type_,
   mergeField kw.default e.default, mergeField kw.nargs e.nargs⟩

/-- `re.sub(r'^-*', '', name)`: strip leading dashes. -/
def stripDashes (s : String) : String :=
  String.mk (s.data.dropWhile (fun c => c = '-'))

/-- The search loop of `ArgumentParser.add_argument`: the first candidate
flag whose dash-stripped name is a key of the stored map selects the entry
(the loop `break`s there). -/
def findArgmapEntry (argmap : List (String × ArgSpec)) : List String → Option ArgSpec
  | [] => none
  | n :: rest =>
    match argmap.lookup (stripDashes n) with
    | some e => some e
    | none => findArgmapEntry argmap rest

/-- The kwargs that `ArgumentParser.add_argument` forwards to
`argparse.ArgumentParser.add_argument` after the docstring-driven merge. -/
def add_argument_kwargs (argmap : List (String × ArgSpec)) (names : List String)
    (kw : Kwargs) : Kwargs :=
  match findArgmapEntry argmap names with
  | some e => applyEntry e kw
  | none => kw

/-- The state of a `dsargparse.ArgumentParser` as far as the claims are
concerned: its stored ArgSpec map and the arguments registered so far (flag
names with the kwargs forwarded to argparse). -/
structure ParserState where
  argmap : List (String × ArgSpec)
  registered : List (List String × Kwargs)

/-- `ArgumentParser.add_argument`: merge kwargs from the stored map, then
delegate (modelled as recording the registration). -/
def add_argument (st : ParserState) (names : List String) (kw : Kwargs) :
    ParserState :=
  { st with registered :=
      st.registered ++ [(names, add_argument_kwargs st.argmap names kw)] }

set_option linter.unusedVariables false in
/-- `ArgumentParser.add_arguments_auto(excludes, kind)`: an unknown kind
raises a bare `ValueError`; otherwise every name of the stored map is
registered with the kind's flag form. The `excludes` parameter is accepted
but never read by the body — faithful to the source. -/
def add_arguments_auto (st : ParserState) (excludes : Option (List String))
    (kind : String) : Except PyErr ParserState :=
  if kind = "optional" then
    .ok (st.argmap.foldl (fun s p => add_argument s ["--" ++ p.1] emptyKwargs) st)
  else if kind = "positional" then
    .ok (st.argmap.foldl (fun s p => add_argument s [p.1] emptyKwargs) st)
  else .error (.valueError "")

/-!
## Concrete instances used by the theorems
-/

/-- The round-trip docstring of claim C9. -/
def docRoundTrip : String := "Title.\n\nArgs:\n  x: about x."

/-- A function carrying `docRoundTrip` whose parameter `x` has no default. -/
def fRoundTrip : Func := ⟨"f", some docRoundTrip, ["x"], []⟩

/-- Doc-comment with explicit annotations for `f(one=324, two=0.234)`. -/
def docTypedC7 : String :=
  "Test docstring.\n\nArgs:\n  one ( int ) : definition of one.\n  two ( float ) : definition of two.\n\nReturns:\n  some value."

/-- Doc-comment without annotations for `f(one=324, two=0.234)`. -/
def docUntypedC7 : String :=
  "Test docstring.\n\nArgs:\n  one: definition of one.\n  two: definition of two.\n\nReturns:\n  some value."

/-- Doc-comment annotating `one` as float although its default is the int
324 (annotation precedence). -/
def docPrecC7 : String :=
  "Test docstring.\n\nArgs:\n  one ( float ) : definition of one.\n  two ( float ) : definition of two.\n\nReturns:\n  some value."

/-- The signature `f(one=324, two=0.234)` paired with a doc-comment. -/
def fWith (doc : String) : Func :=
  ⟨"test", some doc, ["one", "two"], [.int 324, .float "0.234"]⟩

/-- A function documenting a bare `(list)` annotation. -/
def fBareList : Func :=
  ⟨"test", some "T.\n\nArgs:\n  one ( list ) : d.", ["one"], []⟩

/-- A well-formed doc-comment with a body and no `Args:` section. -/
def docNoArgs : String :=
  "Test docstring.\n\nThis function do something.\n\nReturns:\n  some value."

/-- A function carrying `docNoArgs`. -/
def fNoArgs : Func := ⟨"test", some docNoArgs, [], []⟩

/-- A handler whose docstring is whitespace only: non-empty, hence truthy,
but stripped to nothing by `_parse_doc`. -/
def fWhitespaceDoc : Func := ⟨"handler", some "   ", [], []⟩

/-- A handler without docstring. -/
def fNoDoc : Func := ⟨"nodoc", none, [], []⟩

/-- A stored ArgSpec map with a single entry carrying only help text. -/
def specOne : ArgSpec := ⟨"about one.", none, none, none⟩

/-- A parser whose stored map is `specOne` under the name `one`. -/
def stOne : ParserState := ⟨[("one", specOne)], []⟩

/-- The description `_parse_doc` computes from `strClassDoc` (what
`ArgumentParser.__init__` actually stores, independent of the module). -/
def strDocDescription : String :=
  "str(object=...) -> str\n\nstr(bytes_or_buffer[, encoding[, errors]]) -> str\nCreate a new string object from the given object."

theorem parse_doc_eq_parseDocStr (o : PyObj) (doc : String)
    (h : dunderDoc o = some doc) : parse_doc o = parseDocStr doc o := by
  unfold parse_doc
  rw [h]

theorem mergeField_some {α : Type} (v : Option α) (s : Option α) :
    mergeField (some v) s = some v := rfl

theorem mergeField_none {α : Type} (s : Option α) :
    mergeField (none : Option (Option α)) s = Option.map some s := by
  cases s <;> rfl

theorem dropWhile_eq_nil_of_all {α : Type} (l : List α) (p : α → Bool)
    (h : ∀ x ∈ l, p x = true) : l.dropWhile p = [] := by
  induction l with
  | nil => rfl
  | cons a t ih =>
    have ha : p a = true := h a (List.mem_cons_self a t)
    simp only [List.dropWhile, ha]
    exact ih (fun x hx => h x (List.mem_cons_of_mem a hx))

theorem parse_doc_eq_of_dunderDoc_empty (o : PyObj) (h : dunderDoc o = some "") :
    parse_doc o = .error .indexError := by
  unfold parse_doc
  rw [h]
  rfl

theorem parse_doc_eq_of_dunderDoc_none (o : PyObj) (h : dunderDoc o = none) :
    parse_doc o = .error .attributeError := by
  unfold parse_doc
  rw [h]

/-!
## Claim theorems
-/

/-- C9: parsing the doc-comment `Title.\n\nArgs:\n  x: about x.` for a
function whose parameter `x` has no default yields headline `Title.`,
description `Title.`, and an args mapping with exactly one entry `x` whose
help text is `about x.` and whose type, default, and nargs are unset. -/
theorem claim_C9 :
    parse_doc (.func fRoundTrip) =
      .ok ⟨"Title.", "Title.", [("x", ⟨"about x.", none, none, none⟩)]⟩ := rfl

/-- C7: for `f(one=324, two=0.234)` with a matching doc-comment, parsing
yields an ArgSpec for `one` with int type and default 324 and for `two`
with float type and default 0.234, whether annotations are present (first
conjunct) or not (second conjunct, inferred from the defaults); and when an
explicit annotation conflicts with the default's runtime shape the
annotation wins (third conjunct: `one` annotated float keeps type float
although its default is the int 324). -/
theorem claim_C7 :
    parse_doc (.func (fWith docTypedC7)) =
      .ok ⟨"Test docstring.", "Test docstring.",
        [("one", ⟨"definition of one.", some .int, some (.int 324), none⟩),
         ("two", ⟨"definition of two.", some .float, some (.float "0.234"), none⟩)]⟩
    ∧ parse_doc (.func (fWith docUntypedC7)) =
      .ok ⟨"Test docstring.", "Test docstring.",
        [("one", ⟨"definition of one.", some .int, some (.int 324), none⟩),
         ("two", ⟨"definition of two.", some .float, some (.float "0.234"), none⟩)]⟩
    ∧ parse_doc (.func (fWith docPrecC7)) =
      .ok ⟨"Test docstring.", "Test docstring.",
        [("one", ⟨"definition of one.", some .float, some (.int 324), none⟩),
         ("two", ⟨"definition of two.", some .float, some (.float "0.234"), none⟩)]⟩ :=
  ⟨rfl, rfl, rfl⟩

/-- C8: for every doc-comment none of whose lines contains the `Args:`
marker (and whose pre-keyword content is non-empty, i.e. well-formed),
parsing yields an empty args mapping, and the description is the headline
alone when there is no body, or the headline joined by a blank line with
the dedented body. -/
theorem claim_C8 (f : Func) (doc : String) (hdoc : f.doc = some doc)
    (hnoargs : ∀ l ∈ pySplitlinesL (pyStripL doc.data), checker KEYWORDS_ARGS l = true)
    (hd : List Char) (tl : List (List Char))
    (hdesc : descriptionLines doc.data = hd :: tl) :
    parse_doc (.func f) =
      .ok ⟨String.mk hd,
        if tl.isEmpty then String.mk hd
        else String.mk hd ++ "\n\n" ++ String.mk (pyDedentL (intercalateNl tl)),
        []⟩ := by
  have h1 : (pySplitlinesL (pyStripL doc.data)).dropWhile (checker KEYWORDS_ARGS) = [] :=
    dropWhile_eq_nil_of_all _ _ hnoargs
  have h2 : argsSectionText doc.data = [] := by
    unfold argsSectionText argsSectionLines
    rw [h1]
    rfl
  have h3 : parse_args (argsSectionText doc.data) (.func f) = .ok [] := by
    rw [h2]
    rfl
  rw [parse_doc_eq_parseDocStr (.func f) doc hdoc]
  unfold parseDocStr
  simp only [h3, hdesc]

/-- Witness for C8 at the Args-free doc-comment with a body from the test
suite. -/
theorem claim_C8_witness :
    parse_doc (.func fNoArgs) =
      .ok ⟨"Test docstring.", "Test docstring.\n\nThis function do something.", []⟩ := by
  have h := claim_C8 fNoArgs docNoArgs rfl (by decide)
      "Test docstring.".data ["This function do something.".data] (by rfl)
  exact h

/-- C6: annotation resolution: `(int)` yields type int with nargs unset;
`(list[int])` yields type int with nargs one-or-more; and any entry line
whose extracted annotation contains more than one opening bracket yields
both unset without raising. -/
theorem claim_C6 :
    extract_type_nargs "one ( int ) : about one.".data = .ok (some .int, none)
    ∧ extract_type_nargs "one ( list[int] ) : about one.".data = .ok (some .int, some "+")
    ∧ ∀ line : List Char, countChar (pyStripL (subP1group3 line)) '[' > 1 →
        extract_type_nargs line = .ok (none, none) := by
  refine ⟨rfl, rfl, ?_⟩
  intro line h
  have hne : (pyStripL (subP1group3 line)).isEmpty = false := by
    rcases hc : pyStripL (subP1group3 line) with _ | ⟨a, l⟩
    · rw [hc] at h
      simp [countChar] at h
    · rfl
  unfold extract_type_nargs extractTypeNargsCore
  simp [hne, h]

/-- Witness for C6 on a doubly bracketed annotation. -/
theorem claim_C6_witness :
    countChar (pyStripL (subP1group3 "one ( dict[list[int]] ) : d.".data)) '[' > 1
    ∧ extract_type_nargs "one ( dict[list[int]] ) : d.".data = .ok (none, none) :=
  ⟨by decide, claim_C6.2.2 _ (by decide)⟩

/-- C10: a bare sequence-keyword annotation such as `(list)` or `(tuple)`
makes `eval(None)` raise `TypeError` instead of producing a variadic
ArgSpec with element type unset; the error propagates out of doc parsing. -/
theorem claim_C10 :
    extract_type_nargs "one ( list ) : d.".data = .error .typeError
    ∧ extract_type_nargs "one ( tuple ) : d.".data = .error .typeError
    ∧ parse_doc (.func fBareList) = .error .typeError :=
  ⟨rfl, rfl, rfl⟩

/-- C4: in `add_argument`, every field explicitly supplied by the caller is
forwarded unchanged; when no dash-stripped flag name matches the stored map
the kwargs are untouched; and when one matches, each of help, type,
default, nargs that the caller did not supply is copied exactly when it is
set in the entry (unset entry fields are never copied). -/
theorem claim_C4 (argmap : List (String × ArgSpec)) (names : List String) (kw : Kwargs) :
    (∀ v, kw.help = some v → (add_argument_kwargs argmap names kw).help = some v)
    ∧ (∀ v, kw.type_ = some v → (add_argument_kwargs argmap names kw).type_ = some v)
    ∧ (∀ v, kw.default = some v → (add_argument_kwargs argmap names kw).default = some v)
    ∧ (∀ v, kw.nargs = some v → (add_argument_kwargs argmap names kw).nargs = some v)
    ∧ (findArgmapEntry argmap names = none → add_argument_kwargs argmap names kw = kw)
    ∧ (∀ e, findArgmapEntry argmap names = some e →
        (kw.help = none → (add_argument_kwargs argmap names kw).help = some (some e.help))
        ∧ (kw.type_ = none →
            (add_argument_kwargs argmap names kw).type_ = Option.map some e.type_)
        ∧ (kw.default = none →
            (add_argument_kwargs argmap names kw).default = Option.map some e.default)
        ∧ (kw.nargs = none →
            (add_argument_kwargs argmap names kw).nargs = Option.map some e.nargs)) := by
  unfold add_argument_kwargs
  cases hf : findArgmapEntry argmap names with
  | none =>
    refine ⟨fun v hv => hv, fun v hv => hv, fun v hv => hv, fun v hv => hv,
      fun _ => rfl, ?_⟩
    intro e he
    cases he
  | some e0 =>
    refine ⟨?_, ?_, ?_, ?_, ?_, ?_⟩
    · intro v hv
      show mergeField kw.help (some e0.help) = some v
      rw [hv]
      rfl
    · intro v hv
      show mergeField kw.type_ e0.type_ = some v
      rw [hv]
      rfl
    · intro v hv
      show mergeField kw.default e0.default = some v
      rw [hv]
      rfl
    · intro v hv
      show mergeField kw.nargs e0.nargs = some v
      rw [hv]
      rfl
    · intro hnone
      cases hnone
    · intro e he
      cases Option.some.inj he
      refine ⟨?_, ?_, ?_, ?_⟩
      · intro hh
        show mergeField kw.help (some e0.help) = some (some e0.help)
        rw [hh]
        rfl
      · intro hh
        show mergeField kw.type_ e0.type_ = Option.map some e0.type_
        rw [hh]
        exact mergeField_none e0.type_
      · intro hh
        show mergeField kw.default e0.default = Option.map some e0.default
        rw [hh]
        exact mergeField_none e0.default
      · intro hh
        show mergeField kw.nargs e0.nargs = Option.map some e0.nargs
        rw [hh]
        exact mergeField_none e0.nargs

/-- Witness for C4: a stored entry for `one` with help text and int type;
`add_argument("--one", help=H)` keeps the caller help and copies the type,
while the unset nargs is not copied. -/
theorem claim_C4_witness :
    (add_argument_kwargs [("one", ⟨"help text", some .int, none, none⟩)] ["--one"]
      ⟨some (some "H"), none, none, none⟩).help = some (some "H")
    ∧ (add_argument_kwargs [("one", ⟨"help text", some .int, none, none⟩)] ["--one"]
      ⟨some (some "H"), none, none, none⟩).type_ = some (some .int)
    ∧ (add_argument_kwargs [("one", ⟨"help text", some .int, none, none⟩)] ["--one"]
      ⟨some (some "H"), none, none, none⟩).nargs = none := by
  have h := claim_C4 [("one", ⟨"help text", some .int, none, none⟩)] ["--one"]
    ⟨some (some "H"), none, none, none⟩
  refine ⟨h.1 (some "H") rfl, ?_, ?_⟩
  · exact (h.2.2.2.2.2 ⟨"help text", some .int, none, none⟩ rfl).2.1 rfl
  · exact (h.2.2.2.2.2 ⟨"help text", some .int, none, none⟩ rfl).2.2.2 rfl

/-- C5 counterexample: a handler whose docstring is whitespace only has a
non-empty doc-comment, yet registration neither succeeds nor raises the
documentation-format error: it raises `IndexError` from the headline
lookup. -/
theorem claim_C5_counterexample :
    addParser (some fWhitespaceDoc) none none none = .error .indexError
    ∧ fWhitespaceDoc.doc = some "   " ∧ ("   " : String) ≠ "" :=
  ⟨rfl, rfl, by decide⟩

/-- C5 (amended): registering a handler with an absent or empty doc-comment
fails at registration time with a `ValueError` naming the handler; for a
handler whose doc-comment parses successfully, registration succeeds and
binds the handler as the default of the dispatch attribute `cmd`. -/
theorem claim_C5 (f : Func) (nm kwHelp kwDesc : Option String) :
    ((f.doc = none ∨ f.doc = some "") →
      addParser (some f) nm kwHelp kwDesc =
        .error (.valueError ("No docstrings given in " ++ f.name)))
    ∧ (∀ info, parse_doc (.func f) = .ok info →
      addParser (some f) nm kwHelp kwDesc =
        .ok ⟨resolveKw nm f.name, resolveKw kwHelp info.headline,
          resolveKw kwDesc info.description, info.args, some f⟩) := by
  constructor
  · intro hdoc
    have hfd : falsyStr f.doc = true := by
      rcases hdoc with h | h <;> rw [h] <;> rfl
    simp [addParser, hfd]
  · intro info hinfo
    have hfd : falsyStr f.doc = false := by
      cases hd : f.doc with
      | none =>
        rw [parse_doc_eq_of_dunderDoc_none (.func f) hd] at hinfo
        cases hinfo
      | some s =>
        by_cases hs : s = ""
        · subst hs
          rw [parse_doc_eq_of_dunderDoc_empty (.func f) hd] at hinfo
          cases hinfo
        · show s.isEmpty = false
          cases hb : s.isEmpty with
          | false => rfl
          | true => exact absurd ((String.isEmpty_iff s).mp hb) hs
    simp [addParser, hfd, hinfo]

/-- Witness for C5: the error branch at a docless handler and the success
branch at the round-trip handler. -/
theorem claim_C5_witness :
    addParser (some fNoDoc) none none none =
      .error (.valueError "No docstrings given in nodoc")
    ∧ addParser (some fRoundTrip) none none none =
      .ok ⟨"f", "Title.", "Title.", [("x", ⟨"about x.", none, none, none⟩)],
        some fRoundTrip⟩ := by
  constructor
  · exact (claim_C5 fNoDoc none none none).1 (Or.inl rfl)
  · exact (claim_C5 fRoundTrip none none none).2
      ⟨"Title.", "Title.", [("x", ⟨"about x.", none, none, none⟩)]⟩ rfl

/-- C1 (code bug): `add_arguments_auto` with `one` in `excludes` still
registers `--one` — the `excludes` parameter is ignored by the body, against
the claim and the function's own docstring; an unknown kind does raise the
configuration `ValueError`. -/
theorem claim_C1 :
    add_arguments_auto stOne (some ["one"]) "optional" =
      .ok ⟨[("one", specOne)],
        [(["--one"], ⟨some (some "about one."), none, none, none⟩)]⟩
    ∧ add_arguments_auto stOne (some ["one"]) "bogus" = .error (.valueError "") :=
  ⟨rfl, rfl⟩

/-- C2 (code bug): the parser description computed by
`ArgumentParser.__init__` from a main function is the parse of the builtin
`str` class docstring, identical for different module docstrings and
different from the module's own description. -/
theorem claim_C2 :
    initDescription "Title.\n\nBody." none = .ok (some strDocDescription)
    ∧ initDescription "A completely different module docstring." none =
        .ok (some strDocDescription)
    ∧ strDocDescription ≠ "Title.\n\nBody." :=
  ⟨rfl, rfl, by decide⟩

end Dsarg

